import Mathlib

/-!
Verification of the link classifier in `.github/actions/link-checker/link_checker.py`
(QuantEcon/meta). The classifier `is_likely_bot_blocked`, the per-link result
construction `check_link`, and the suggestion generator `generate_ai_suggestions`
are embedded below as pure Lean functions over `String` (modelled as its list of
characters), `Option Int` status codes and `Option String` errors.
-/

namespace LinkChecker

/-- Anchored match: `listLeadMatch pat l` holds when `pat` occurs at the
head of `l`; the basic step of Python's substring scan. -/
def listLeadMatch : List Char → List Char → Bool
  | [], _ => true
  | _ :: _, [] => false
  | p :: ps, c :: cs => p == c && listLeadMatch ps cs

/-- Substring occurrence: `listHasSub pat l` holds when `pat` occurs
contiguously anywhere in `l`; `listHasSub [] l = true`, matching
Python's `'' in s`. -/
def listHasSub (pat : List Char) : List Char → Bool
  | [] => pat.isEmpty
  | c :: cs => listLeadMatch pat (c :: cs) || listHasSub pat cs

/-- Model of Python's `pat in s` on strings. -/
def substrIn (pat s : String) : Bool := listHasSub pat.data s.data

/-- Model of Python's `s.startswith(pat)`. -/
def pyStartswith (s pat : String) : Bool := listLeadMatch pat.data s.data

/-- Model of Python's `s.lower()`: character-wise lowering (the strings
involved here are ASCII, where the two agree). -/
def lowerStr (s : String) : String := String.mk (s.data.map Char.toLower)

/-- Python truthiness of an optional string (`None` and `''` are falsy). -/
def errTruthy : Option String → Bool
  | none => false
  | some s => !(decide (s = ""))

/-- Python's `str(error)`: the string itself, or `"None"` for `None`
(only ever reached behind a truthiness guard in the source). -/
def errStr : Option String → String
  | none => "None"
  | some s => s

/-- The `domain_indicators` list of `is_likely_bot_blocked`
(link_checker.py:22-25): major sites that commonly block bots (the spec's
`bot_prone_domains`). -/
def domain_indicators : List String :=
  ["netflix.com", "amazon.com", "facebook.com", "twitter.com", "instagram.com",
   "youtube.com", "linkedin.com", "pinterest.com", "reddit.com", "wikipedia.org"]

/-- The `legitimate_domains` list of `is_likely_bot_blocked`
(link_checker.py:28-32). -/
def legitimate_domains : List String :=
  ["python.org", "jupyter.org", "github.com", "docs.python.org",
   "stackoverflow.com", "readthedocs.org", "arxiv.org", "doi.org",
   "numpy.org", "scipy.org", "matplotlib.org", "pandas.pydata.org"]

/-- The `bot_blocking_codes` list (link_checker.py:49). -/
def bot_blocking_codes : List Int := [429, 451, 503]

/-- Rule 1 (link_checker.py:35-37): some bot-prone indicator occurs in the
lowercased URL. -/
def ruleBotProne (url : String) : Bool :=
  domain_indicators.any fun d => substrIn d (lowerStr url)

/-- Rule 2 (link_checker.py:40-42): some legitimate domain occurs in the
lowercased URL, the error is truthy, and `str(error)` contains
`"Connection Error"`. -/
def ruleLegitConn (url : String) (error : Option String) : Bool :=
  legitimate_domains.any fun d =>
    substrIn d (lowerStr url) && errTruthy error
      && substrIn "Connection Error" (errStr error)

/-- Rule 3 (link_checker.py:45-46): truthy error whose lowercase form
contains `"encoding"`. -/
def ruleEncoding (error : Option String) : Bool :=
  errTruthy error && substrIn "encoding" (lowerStr (errStr error))

/-- Rule 4 (link_checker.py:50-51): `status_code in bot_blocking_codes`
(false for a missing status code, as in Python `None in [...]`). -/
def ruleStatus (status_code : Option Int) : Bool :=
  match status_code with
  | none => false
  | some c => bot_blocking_codes.contains c

/-- The classifier `is_likely_bot_blocked(url, response_content=None,
status_code=None, error=None)` (link_checker.py:20-53): the first-match
cascade of the four rules; `response_content` is accepted but never
consulted. -/
def is_likely_bot_blocked (url : String) (response_content : Option String)
    (status_code : Option Int) (error : Option String) : Bool :=
  if ruleBotProne url then true
  else if ruleLegitConn url error then true
  else if ruleEncoding error then true
  else if ruleStatus status_code then true
  else false

/-- The early-return cascade equals the disjunction of the four rules
(each branch returns `true`). -/
theorem is_likely_bot_blocked_eq_or (url : String) (rb : Option String)
    (sc : Option Int) (e : Option String) :
    is_likely_bot_blocked url rb sc e =
      (ruleBotProne url || ruleLegitConn url e || ruleEncoding e || ruleStatus sc) := by
  unfold is_likely_bot_blocked
  cases ruleBotProne url <;> cases ruleLegitConn url e <;>
    cases ruleEncoding e <;> cases ruleStatus sc <;> simp

/-- The five-rule decision table transcribed from the specification's words
(§4.1, first matching rule wins), to be compared with `is_likely_bot_blocked`.
Hostname containment is read case-insensitively (matching on the lowercased
URL): hostnames are case-insensitive, and the spec's only explicit lowercasing
remark concerns the error text of rule 3. -/
def classifySpec (url : String) (responseBody : Option String)
    (statusCode : Option Int) (error : Option String) : Bool :=
  if domain_indicators.any (fun d => substrIn d (lowerStr url)) then true
  else if (legitimate_domains.any fun d => substrIn d (lowerStr url)) &&
      (match error with
       | none => false
       | some e => substrIn "Connection Error" e) then true
  else if (match error with
           | none => false
           | some e => substrIn "encoding" (lowerStr e)) then true
  else if (match statusCode with
           | none => false
           | some c => decide (c = 429 ∨ c = 451 ∨ c = 503)) then true
  else false

/-! ### The link-fetch loop and the suggestion generator -/

/-- The fields of a `requests` response consulted by `check_link`:
final status code, body text, final URL and the number of redirects followed
(`len(response.history)`). -/
structure HttpResponse where
  status_code : Int
  text : String
  url : String
  history : Nat
deriving DecidableEq

/-- Model of `response.ok` of the `requests` library (an external
collaborator): false exactly for 4xx and 5xx status codes. -/
def responseOk (r : HttpResponse) : Bool :=
  !(decide (400 ≤ r.status_code ∧ r.status_code < 600))

/-- Outcome of the HTTP fetch inside `check_link`: a response, or one of the
four caught exception classes (link_checker.py:105-135). -/
inductive FetchOutcome where
  | success (resp : HttpResponse)
  | timeout
  | connectionError
  | unicodeDecodeError (msg : String)
  | otherException (msg : String)
deriving DecidableEq

/-- The result record built by `check_link` (link_checker.py:79-89). -/
structure LinkResult where
  url : String
  status_code : Int
  final_url : String
  redirect_count : Nat
  redirected : Bool
  broken : Bool
  silent : Bool
  error : Option String
  likely_bot_blocked : Bool
deriving DecidableEq

/-- The fetch-result builder `check_link(url, timeout, max_redirects,
silent_codes)` (link_checker.py:55-135), with the HTTP fetch abstracted as a
`FetchOutcome` (the `timeout`/`max_redirects` arguments only parameterise the
fetch itself). -/
def check_link (url : String) (silent_codes : List Int)
    (outcome : FetchOutcome) : LinkResult :=
  match outcome with
  | FetchOutcome.success resp =>
    let result : LinkResult :=
      { url := url, status_code := resp.status_code, final_url := resp.url,
        redirect_count := resp.history, redirected := decide (0 < resp.history),
        broken := false, silent := false, error := none,
        likely_bot_blocked :=
          is_likely_bot_blocked url (some resp.text) (some resp.status_code) none }
    if silent_codes.contains resp.status_code then { result with silent := true }
    else if result.likely_bot_blocked then { result with silent := true }
    else if !(responseOk resp) then { result with broken := true }
    else result
  | FetchOutcome.timeout =>
    let likely_blocked := is_likely_bot_blocked url none none (some "timeout")
    { url := url, status_code := 0, final_url := url, redirect_count := 0,
      redirected := false, broken := !likely_blocked, silent := likely_blocked,
      error := some "Timeout", likely_bot_blocked := likely_blocked }
  | FetchOutcome.connectionError =>
    let likely_blocked := is_likely_bot_blocked url none none (some "Connection Error")
    { url := url, status_code := 0, final_url := url, redirect_count := 0,
      redirected := false, broken := !likely_blocked, silent := likely_blocked,
      error := some "Connection Error", likely_bot_blocked := likely_blocked }
  | FetchOutcome.unicodeDecodeError msg =>
    { url := url, status_code := 0, final_url := url, redirect_count := 0,
      redirected := false, broken := false, silent := true,
      error := some ("Encoding issue: " ++ msg), likely_bot_blocked := true }
  | FetchOutcome.otherException msg =>
    let likely_blocked := is_likely_bot_blocked url none none (some msg)
    { url := url, status_code := 0, final_url := url, redirect_count := 0,
      redirected := false, broken := !likely_blocked, silent := likely_blocked,
      error := some msg, likely_bot_blocked := likely_blocked }

/-- One remediation suggestion entry (link_checker.py:192-239). -/
structure SubSuggestion where
  type : String
  url : String
  reason : String
deriving DecidableEq

/-- One suggestion record of `generate_ai_suggestions`. -/
structure Suggestion where
  original_url : String
  issue : String
  suggestions : List SubSuggestion
deriving DecidableEq

/-- The legitimate-domain list local to `generate_ai_suggestions`
(link_checker.py:182-185). -/
def suggestion_legit_domains : List String :=
  ["github.com", "python.org", "jupyter.org", "readthedocs.org",
   "stackoverflow.com", "wikipedia.org", "arxiv.org", "doi.org"]

/-- The body of the broken-results loop of `generate_ai_suggestions`
(link_checker.py:168-243): `none` when the result is skipped (bot-blocked, or
no constructive fix found), otherwise the suggestion record appended. -/
def brokenSuggestion (result : LinkResult) : Option Suggestion :=
  if result.likely_bot_blocked then none
  else
    let url := result.url
    let is_legitimate_domain := suggestion_legit_domains.any fun d => substrIn d (lowerStr url)
    let subs : List SubSuggestion :=
      if substrIn "github.com" url then
        (if substrIn "/blob/master/" url then
          [{ type := "branch_update", url := url.replace "/blob/master/" "/blob/main/",
             reason := "GitHub default branch changed from master to main" }]
         else [])
        ++ (if substrIn "github.io" url && substrIn "http://" url then
          [{ type := "https_upgrade", url := url.replace "http://" "https://",
             reason := "GitHub Pages now requires HTTPS" }]
         else [])
      else if substrIn "readthedocs.org" url && substrIn "http://" url then
        [{ type := "https_upgrade", url := url.replace "http://" "https://",
           reason := "Read the Docs now requires HTTPS" }]
      else if substrIn "docs.python.org" url then
        (if substrIn "/2.7/" url then
          [{ type := "version_update", url := url.replace "/2.7/" "/3/",
             reason := "Python 2.7 is deprecated, consider Python 3 documentation" }]
         else [])
      else if pyStartswith url "http://" && !(substrIn "localhost" url) then
        (if is_legitimate_domain then
          [{ type := "https_upgrade", url := url.replace "http://" "https://",
             reason := "HTTPS is more secure and widely supported" }]
         else
          [{ type := "manual_check", url := url.replace "http://" "https://",
             reason := "Try HTTPS version or verify the link manually" }])
      else []
    if subs.isEmpty then none
    else some { original_url := url,
                issue := "Broken link (Status: " ++ toString result.status_code ++ ")",
                suggestions := subs }

/-- The body of the redirect-results loop of `generate_ai_suggestions`
(link_checker.py:246-257). -/
def redirectSuggestion (result : LinkResult) : Option Suggestion :=
  if 0 < result.redirect_count then
    some { original_url := result.url,
           issue := "Redirected " ++ toString result.redirect_count ++ " times",
           suggestions := [{ type := "redirect_update", url := result.final_url,
                             reason := "Update to final destination to avoid "
                               ++ toString result.redirect_count ++ " redirect(s)" }] }
  else none

/-- The suggestion generator `generate_ai_suggestions(broken_results,
redirect_results)` (link_checker.py:163-259): the two loops appending to
`suggestions`. -/
def generate_ai_suggestions (broken_results redirect_results : List LinkResult) :
    List Suggestion :=
  broken_results.filterMap brokenSuggestion
    ++ redirect_results.filterMap redirectSuggestion

/-! ### Helper lemmas -/

/-- A constant conjunct distributes out of `List.any`. -/
theorem list_any_and_const (l : List String) (p : String → Bool) (b : Bool) :
    (l.any fun d => p d && b) = (l.any p && b) := by
  induction l with
  | nil => simp
  | cons a t ih =>
    simp only [List.any_cons, ih]
    cases p a <;> cases b <;> simp

/-- An anchored match survives character-wise lowering when the pattern is
already lowercase. -/
theorem listLeadMatch_map_toLower (P : List Char) :
    ∀ L : List Char, listLeadMatch P L = true → P.map Char.toLower = P →
      listLeadMatch P (L.map Char.toLower) = true := by
  induction P with
  | nil => intro L _ _; simp [listLeadMatch]
  | cons p ps ih =>
    intro L h hfix
    cases L with
    | nil => simp [listLeadMatch] at h
    | cons c cs =>
      simp only [listLeadMatch, Bool.and_eq_true, beq_iff_eq] at h
      simp only [List.map_cons, List.cons.injEq] at hfix
      simp only [List.map_cons, listLeadMatch, Bool.and_eq_true, beq_iff_eq]
      refine ⟨?_, ih cs h.2 hfix.2⟩
      rw [← h.1]
      exact hfix.1.symm

/-- A substring occurrence survives character-wise lowering when the pattern
is already lowercase. -/
theorem listHasSub_map_toLower (P : List Char) (hfix : P.map Char.toLower = P) :
    ∀ L : List Char, listHasSub P L = true →
      listHasSub P (L.map Char.toLower) = true := by
  intro L
  induction L with
  | nil => intro h; simpa [listHasSub] using h
  | cons c cs ih =>
    intro h
    simp only [listHasSub, Bool.or_eq_true] at h
    rcases h with h | h
    · have := listLeadMatch_map_toLower _ _ h hfix
      simp only [List.map_cons, listHasSub, Bool.or_eq_true]
      exact Or.inl (by simpa using this)
    · simp only [List.map_cons, listHasSub, Bool.or_eq_true]
      exact Or.inr (ih h)

/-- Case-sensitive containment implies containment in the lowercased string,
for a pattern fixed under lowering. -/
theorem substrIn_lowerStr_of_substrIn (pat s : String)
    (hfix : pat.data.map Char.toLower = pat.data)
    (h : substrIn pat s = true) : substrIn pat (lowerStr s) = true :=
  listHasSub_map_toLower pat.data hfix s.data h

/-- Truthiness is absorbed by the `"Connection Error"` containment test
(the empty string contains no nonempty pattern). -/
theorem errTruthy_and_connErr (s : String) :
    (errTruthy (some s) && substrIn "Connection Error" s)
      = substrIn "Connection Error" s := by
  by_cases hs : s = ""
  · subst hs; decide
  · simp [errTruthy, hs]

/-- Truthiness is absorbed by the `"encoding"` containment test. -/
theorem errTruthy_and_encoding (s : String) :
    (errTruthy (some s) && substrIn "encoding" (lowerStr s))
      = substrIn "encoding" (lowerStr s) := by
  by_cases hs : s = ""
  · subst hs; decide
  · simp [errTruthy, hs]

/-- Rule 2 in the spec's phrasing: legitimate-domain match and an error
containing `"Connection Error"`. -/
theorem ruleLegitConn_eq (url : String) (e : Option String) :
    ruleLegitConn url e =
      ((legitimate_domains.any fun d => substrIn d (lowerStr url)) &&
        (match e with
         | none => false
         | some s => substrIn "Connection Error" s)) := by
  unfold ruleLegitConn
  cases e with
  | none =>
    simp [errTruthy]
  | some s =>
    have hb : ∀ d : String,
        (substrIn d (lowerStr url) && errTruthy (some s)
          && substrIn "Connection Error" (errStr (some s)))
        = (substrIn d (lowerStr url)
            && (errTruthy (some s) && substrIn "Connection Error" s)) := by
      intro d; show _ = _
      cases substrIn d (lowerStr url) <;>
        cases errTruthy (some s) <;> simp [errStr]
    simp only [hb, errTruthy_and_connErr]
    exact list_any_and_const legitimate_domains _ _

/-- Rule 3 in the spec's phrasing: error present with lowercase form
containing `"encoding"`. -/
theorem ruleEncoding_eq (e : Option String) :
    ruleEncoding e =
      (match e with
       | none => false
       | some s => substrIn "encoding" (lowerStr s)) := by
  cases e with
  | none => rfl
  | some s => simpa [ruleEncoding, errStr] using errTruthy_and_encoding s

/-- Rule 4 in the spec's phrasing: status code equal to 429, 451 or 503. -/
theorem ruleStatus_eq (sc : Option Int) :
    ruleStatus sc =
      (match sc with
       | none => false
       | some c => decide (c = 429 ∨ c = 451 ∨ c = 503)) := by
  cases sc with
  | none => rfl
  | some c =>
    show bot_blocking_codes.contains c = _
    by_cases h1 : c = 429
    · subst h1; decide
    · by_cases h2 : c = 451
      · subst h2; decide
      · by_cases h3 : c = 503
        · subst h3; decide
        · simp [bot_blocking_codes, List.contains, h1, h2, h3]

/-! ### Claim theorems -/

/-- C1: `is_likely_bot_blocked` implements exactly the five-rule first-match
decision table of the spec: bot-prone domain in the URL, then legitimate
domain plus `"Connection Error"` error, then error whose lowercase form
contains `"encoding"`, then status code in `{429, 451, 503}`, else `false`. -/
theorem claim_C1_decision_table (url : String) (rb : Option String)
    (sc : Option Int) (e : Option String) :
    is_likely_bot_blocked url rb sc e = classifySpec url rb sc e := by
  unfold is_likely_bot_blocked classifySpec
  rw [ruleLegitConn_eq, ruleEncoding_eq, ruleStatus_eq]
  rfl

/-- C2: any URL containing a `domain_indicators` entry is classified as
bot-blocked regardless of the body, status code and error fields. -/
theorem claim_C2_bot_prone_always_true (url : String) (rb : Option String)
    (sc : Option Int) (e : Option String) (d : String)
    (hd : d ∈ domain_indicators) (hsub : substrIn d url = true) :
    is_likely_bot_blocked url rb sc e = true := by
  have hfix : d.data.map Char.toLower = d.data := by
    simp only [domain_indicators, List.mem_cons, List.not_mem_nil, or_false] at hd
    rcases hd with rfl | rfl | rfl | rfl | rfl | rfl | rfl | rfl | rfl | rfl <;> decide
  have hlow : substrIn d (lowerStr url) = true :=
    substrIn_lowerStr_of_substrIn d url hfix hsub
  have h1 : ruleBotProne url = true := by
    unfold ruleBotProne
    exact List.any_eq_true.mpr ⟨d, hd, hlow⟩
  simp [is_likely_bot_blocked_eq_or, h1]

/-- Witness for C2 at a concrete bot-prone URL with all other fields set. -/
theorem claim_C2_witness :
    is_likely_bot_blocked "https://www.netflix.com/watch" (some "body")
      (some 200) (some "oops") = true :=
  claim_C2_bot_prone_always_true "https://www.netflix.com/watch" (some "body")
    (some 200) (some "oops") "netflix.com" (by decide) (by decide)

/-- C3 counterexample: `https://python.org.netflix.com/` contains the
legitimate domain `python.org`, yet with no error and no status code the
classifier returns `true` (the URL also contains the bot-prone
`netflix.com`), where the claim demands `false`. -/
theorem claim_C3_counterexample :
    substrIn "python.org" "https://python.org.netflix.com/" = true ∧
    is_likely_bot_blocked "https://python.org.netflix.com/" none none none = true := by
  decide

/-- C3 (amended): for any URL whose lowercased form contains a
`legitimate_domains` entry, classifying with an error containing
`"Connection Error"` yields `true`; and provided the URL contains no
`domain_indicators` entry, classifying with no error and no triggering
status code yields `false`. -/
theorem claim_C3_legit_domains (url : String) (rb : Option String)
    (sc : Option Int) (d : String) (hd : d ∈ legitimate_domains)
    (hsub : substrIn d (lowerStr url) = true) :
    (∀ s : String, substrIn "Connection Error" s = true →
      is_likely_bot_blocked url rb sc (some s) = true)
    ∧ ((∀ d2 ∈ domain_indicators, substrIn d2 (lowerStr url) = false) →
        ruleStatus sc = false →
        is_likely_bot_blocked url rb sc none = false) := by
  constructor
  · intro s hs
    have htr : errTruthy (some s) = true := by
      by_cases h0 : s = ""
      · subst h0; exact absurd hs (by decide)
      · simp [errTruthy, h0]
    have h2 : ruleLegitConn url (some s) = true := by
      unfold ruleLegitConn
      refine List.any_eq_true.mpr ⟨d, hd, ?_⟩
      simp [hsub, htr, errStr, hs]
    simp [is_likely_bot_blocked_eq_or, h2]
  · intro hno h4
    have h1 : ruleBotProne url = false := by
      unfold ruleBotProne
      simp only [List.any_eq_false]
      intro d2 hd2
      simp [hno d2 hd2]
    have h2 : ruleLegitConn url none = false := by
      unfold ruleLegitConn
      simp only [List.any_eq_false]
      intro d2 _
      simp [errTruthy]
    have h3 : ruleEncoding (none : Option String) = false := rfl
    simp [is_likely_bot_blocked_eq_or, h1, h2, h3, h4]

/-- Witness for C3 (amended) at `https://www.python.org/`. -/
theorem claim_C3_witness :
    is_likely_bot_blocked "https://www.python.org/" none none
      (some "Connection Error") = true ∧
    is_likely_bot_blocked "https://www.python.org/" none none none = false :=
  ⟨(claim_C3_legit_domains "https://www.python.org/" none none "python.org"
      (by decide) (by decide)).1 "Connection Error" (by decide),
   (claim_C3_legit_domains "https://www.python.org/" none none "python.org"
      (by decide) (by decide)).2 (by decide) (by decide)⟩

/-- C4: any present error whose lowercase form contains `"encoding"` forces a
`true` classification, whatever the URL and status code. -/
theorem claim_C4_encoding_error (url : String) (rb : Option String)
    (sc : Option Int) (s : String)
    (h : substrIn "encoding" (lowerStr s) = true) :
    is_likely_bot_blocked url rb sc (some s) = true := by
  have htr : errTruthy (some s) = true := by
    by_cases h0 : s = ""
    · subst h0; exact absurd h (by decide)
    · simp [errTruthy, h0]
  have h3 : ruleEncoding (some s) = true := by
    simp [ruleEncoding, errStr, htr, h]
  simp [is_likely_bot_blocked_eq_or, h3]

/-- Witness for C4 at a concrete encoding error. -/
theorem claim_C4_witness :
    is_likely_bot_blocked "https://example.com/" none (some 200)
      (some "some Encoding problem") = true :=
  claim_C4_encoding_error "https://example.com/" none (some 200)
    "some Encoding problem" (by decide)

/-- C5: a status code in `{429, 451, 503}` forces `true`; a status code in
`{200, 404, 500}` with no domain match and no triggering error yields
`false`. -/
theorem claim_C5_status_codes :
    (∀ (url : String) (rb e : Option String) (c : Int),
      c ∈ bot_blocking_codes →
      is_likely_bot_blocked url rb (some c) e = true)
    ∧ (∀ (url : String) (rb e : Option String) (c : Int),
        c ∈ ([200, 404, 500] : List Int) →
        (∀ d ∈ domain_indicators, substrIn d (lowerStr url) = false) →
        (∀ d ∈ legitimate_domains, substrIn d (lowerStr url) = false) →
        ruleEncoding e = false →
        is_likely_bot_blocked url rb (some c) e = false) := by
  constructor
  · intro url rb e c hc
    have h4 : ruleStatus (some c) = true := by
      simp only [bot_blocking_codes, List.mem_cons, List.not_mem_nil, or_false] at hc
      rcases hc with rfl | rfl | rfl <;> decide
    simp [is_likely_bot_blocked_eq_or, h4]
  · intro url rb e c hc hind hleg henc
    have h1 : ruleBotProne url = false := by
      unfold ruleBotProne
      simp only [List.any_eq_false]
      intro d hd
      simp [hind d hd]
    have h2 : ruleLegitConn url e = false := by
      unfold ruleLegitConn
      simp only [List.any_eq_false]
      intro d hd
      simp [hleg d hd]
    have h4 : ruleStatus (some c) = false := by
      simp only [List.mem_cons, List.not_mem_nil, or_false] at hc
      rcases hc with rfl | rfl | rfl <;> decide
    simp [is_likely_bot_blocked_eq_or, h1, h2, henc, h4]

/-- Witness for C5: status 429 forces `true`; status 404 on an unlisted
domain with no error yields `false`. -/
theorem claim_C5_witness :
    is_likely_bot_blocked "https://example.com/" none (some 429) none = true ∧
    is_likely_bot_blocked "https://example.com/" none (some 404) none = false :=
  ⟨claim_C5_status_codes.1 "https://example.com/" none none 429 (by decide),
   claim_C5_status_codes.2 "https://example.com/" none none 404 (by decide)
     (by decide) (by decide) (by decide)⟩

/-- C6: the six concrete scenarios of the spec. -/
theorem claim_C6_concrete_scenarios :
    is_likely_bot_blocked "https://www.netflix.com/" none none none = true ∧
    is_likely_bot_blocked "https://example.com/" none none none = false ∧
    is_likely_bot_blocked "https://www.python.org/" none none
      (some "Connection Error") = true ∧
    is_likely_bot_blocked "https://unknown-domain.com/" none none
      (some "Connection Error") = false ∧
    is_likely_bot_blocked "https://example.com/" none (some 429) none = true ∧
    is_likely_bot_blocked "https://example.com/" none none
      (some "some encoding problem") = true := by
  decide

/-- C7: the classifier is total — it always yields a boolean — and when no
rule matches it falls through to `false`. -/
theorem claim_C7_total_default_false (url : String) (rb : Option String)
    (sc : Option Int) (e : Option String) :
    (is_likely_bot_blocked url rb sc e = true ∨
      is_likely_bot_blocked url rb sc e = false)
    ∧ (ruleBotProne url = false → ruleLegitConn url e = false →
        ruleEncoding e = false → ruleStatus sc = false →
        is_likely_bot_blocked url rb sc e = false) := by
  constructor
  · cases h : is_likely_bot_blocked url rb sc e
    · exact Or.inr rfl
    · exact Or.inl rfl
  · intro h1 h2 h3 h4
    simp [is_likely_bot_blocked, h1, h2, h3, h4]

/-- Witness for C7 at a fully unclassifiable input. -/
theorem claim_C7_witness :
    is_likely_bot_blocked "https://example.com/" none none none = false :=
  (claim_C7_total_default_false "https://example.com/" none none none).2
    (by decide) (by decide) (by decide) (by decide)

/-- C8: the classifier is deterministic — equal inputs give equal outputs
(it is a pure function of its four arguments). -/
theorem claim_C8_deterministic (u1 u2 : String) (r1 r2 : Option String)
    (s1 s2 : Option Int) (e1 e2 : Option String)
    (hu : u1 = u2) (hr : r1 = r2) (hs : s1 = s2) (he : e1 = e2) :
    is_likely_bot_blocked u1 r1 s1 e1 = is_likely_bot_blocked u2 r2 s2 e2 := by
  subst hu; subst hr; subst hs; subst he; rfl

/-- Witness for C8 at a concrete repeated call. -/
theorem claim_C8_witness :
    is_likely_bot_blocked "https://example.com/" none (some 200) none =
      is_likely_bot_blocked "https://example.com/" none (some 200) none :=
  claim_C8_deterministic "https://example.com/" "https://example.com/"
    none none (some 200) (some 200) none none rfl rfl rfl rfl

/-- C9: every `check_link` result flagged `likely_bot_blocked` is not marked
broken, and bot-blocked broken results contribute nothing to
`generate_ai_suggestions` (filtering them away changes nothing). -/
theorem claim_C9_bot_blocked_suppressed :
    (∀ (url : String) (silent_codes : List Int) (outcome : FetchOutcome),
      (check_link url silent_codes outcome).likely_bot_blocked = true →
      (check_link url silent_codes outcome).broken = false)
    ∧ (∀ broken_results redirect_results : List LinkResult,
        generate_ai_suggestions broken_results redirect_results =
          generate_ai_suggestions
            (broken_results.filter fun r => !r.likely_bot_blocked)
            redirect_results) := by
  constructor
  · intro url silent_codes outcome h
    cases outcome with
    | success resp =>
      simp only [check_link] at h ⊢
      by_cases h1 : silent_codes.contains resp.status_code = true
      · rw [if_pos h1]
      · rw [if_neg h1] at h ⊢
        by_cases h2 : is_likely_bot_blocked url (some resp.text)
            (some resp.status_code) none = true
        · rw [if_pos h2]
        · rw [if_neg h2] at h
          by_cases h3 : (!responseOk resp) = true
          · rw [if_pos h3] at h; exact absurd h h2
          · rw [if_neg h3] at h; exact absurd h h2
    | timeout =>
      simp only [check_link] at h ⊢
      simp [h]
    | connectionError =>
      simp only [check_link] at h ⊢
      simp [h]
    | unicodeDecodeError msg =>
      rfl
    | otherException msg =>
      simp only [check_link] at h ⊢
      simp [h]
  · intro broken_results redirect_results
    have hskip : ∀ r : LinkResult, r.likely_bot_blocked = true →
        brokenSuggestion r = none := by
      intro r h
      simp [brokenSuggestion, h]
    unfold generate_ai_suggestions
    congr 1
    induction broken_results with
    | nil => rfl
    | cons r t ih =>
      by_cases h : r.likely_bot_blocked = true
      · simp [List.filterMap_cons, List.filter_cons, h, hskip r h, ih]
      · have hb : r.likely_bot_blocked = false := by
          revert h; cases r.likely_bot_blocked <;> simp
        simp [List.filterMap_cons, List.filter_cons, hb, ih]

/-- Witness for C9: a timeout on a bot-prone URL is flagged and not broken,
and such a result is dropped by the suggestion generator. -/
theorem claim_C9_witness :
    (check_link "https://www.netflix.com/" [] FetchOutcome.timeout).broken
      = false ∧
    generate_ai_suggestions
        [check_link "https://www.netflix.com/" [] FetchOutcome.timeout] [] =
      generate_ai_suggestions
        (([check_link "https://www.netflix.com/" [] FetchOutcome.timeout]).filter
          fun r => !r.likely_bot_blocked) [] :=
  ⟨claim_C9_bot_blocked_suppressed.1 "https://www.netflix.com/" []
      FetchOutcome.timeout (by decide),
   claim_C9_bot_blocked_suppressed.2
     [check_link "https://www.netflix.com/" [] FetchOutcome.timeout] []⟩

/-- C10: the `response_content` argument never influences the
classification. -/
theorem claim_C10_response_body_irrelevant (url : String) (sc : Option Int)
    (e : Option String) (rb1 rb2 : Option String) :
    is_likely_bot_blocked url rb1 sc e = is_likely_bot_blocked url rb2 sc e :=
  rfl

end LinkChecker
